import Mathlib

/-!
Shallow embedding of the request/response core of the gazu client library
(src/gazu/client.py) together with the get-or-create idiom exercised by
src/tests/test_shot.py. Python module-level mutable state (HOST, tokens) is
passed explicitly as a `ClientState`; the HTTP transport is an explicit
oracle of type `Request → Response`; Python exceptions become `Except`.
-/

namespace Gazu

/-- JSON values, as produced by response.json() and sent as request bodies. -/
inductive Json where
  | null : Json
  | bool : Bool → Json
  | num : Int → Json
  | str : String → Json
  | arr : List Json → Json
  | obj : List (String × Json) → Json

/-- Dictionary field access on a JSON object, as in response_json["version"]. -/
def Json.getField : Json → String → Option Json
  | .obj fields, k => fields.lookup k
  | _, _ => none

/-- Module-level default host, client.py line 26. -/
def HOST : String := "http://pipeline-server.unit.local/"

/-- Module-level initial token dictionary, client.py lines 27-30: both the
access token and the refresh token start as the empty string, with both keys
present. Python dictionaries are embedded as association lists. -/
def tokens : List (String × String) :=
  [("access_token", ""), ("refresh_token", "")]

/-- make_auth_header, client.py lines 75-80: if the key "access_token" is in
the token dictionary, return a Bearer header built from its value, else
return the empty header dictionary. Note the test is key presence, not
non-emptiness of the value. -/
def make_auth_header (tk : List (String × String)) : List (String × String) :=
  match tk.lookup "access_token" with
  | some t => [("Authorization", "Bearer " ++ t)]
  | none => []

/-- Python item.lstrip applied with the slash character: drop every leading
slash. -/
def lstripSlash (s : String) : String :=
  ⟨s.data.dropWhile (fun c => c == '/')⟩

/-- Python item.rstrip applied with the slash character: drop every trailing
slash. -/
def rstripSlash (s : String) : String :=
  ⟨(s.data.reverse.dropWhile (fun c => c == '/')).reverse⟩

/-- The per-segment normalisation of url_path_join, client.py line 88:
item.lstrip then item.rstrip, both with the slash character. -/
def stripSlashes (s : String) : String :=
  rstripSlash (lstripSlash s)

/-- Python str.join: interleave the separator between the elements. -/
def joinWith (sep : String) : List String → String
  | [] => ""
  | [x] => x
  | x :: y :: xs => x ++ sep ++ joinWith sep (y :: xs)

/-- url_path_join, client.py lines 83-88: strip leading and trailing slashes
from every item and join the items with a single slash. -/
def url_path_join (items : List String) : String :=
  joinWith "/" (items.map stripSlashes)

/-- get_full_url, client.py lines 91-95: join the configured host with the
given path. The host global is passed explicitly. -/
def get_full_url (host path : String) : String :=
  url_path_join [host, path]

/-- The four typed exceptions of gazu.exception raised by check_status, each
carrying the offending path. -/
inductive ApiError where
  | RouteNotFound : String → ApiError
  | NotAllowed : String → ApiError
  | NotAuthenticated : String → ApiError
  | ServerError : String → ApiError
deriving DecidableEq, Repr

/-- check_status, client.py lines 148-161: map the failing status codes to
typed exceptions, in source order, and return the status code unchanged
otherwise. -/
def check_status (status_code : Nat) (path : String) : Except ApiError Nat :=
  if status_code = 404 then .error (.RouteNotFound path)
  else if status_code = 403 then .error (.NotAllowed path)
  else if status_code ∈ [401, 422] then .error (.NotAuthenticated path)
  else if status_code ∈ [500, 502] then .error (.ServerError path)
  else .ok status_code

/-- The status codes on which check_status raises. -/
def errorCodes : List Nat := [404, 403, 401, 422, 500, 502]

/-- HTTP verbs used by the client. -/
inductive Method where
  | HEAD : Method
  | GET : Method
  | POST : Method
  | PUT : Method
  | DELETE : Method
deriving DecidableEq, Repr

/-- An outgoing HTTP request as the requests_session receives it: verb, full
url, header dictionary, optional JSON body (the json keyword argument) and
optional multipart file (the files keyword argument). -/
structure Request where
  method : Method
  url : String
  headers : List (String × String)
  jsonBody : Option Json
  files : Option String

/-- An HTTP response as the code consumes it: the status code, the body as
parsed JSON (response.json) and the raw body text (response.text). -/
structure Response where
  status_code : Nat
  json : Json
  text : String

/-- The module-level mutable globals of client.py, passed explicitly: the
configured HOST and the token dictionary. -/
structure ClientState where
  host : String
  tokens : List (String × String)

/-- host_is_up, client.py lines 33-38: a HEAD request on the bare host (no
headers are passed), up exactly when the status code is 200. The transport
is an explicit oracle from requests to responses. -/
def headRequest (st : ClientState) : Request :=
  ⟨.HEAD, st.host, [], none, none⟩

def host_is_up (st : ClientState) (world : Request → Response) : Bool :=
  (world (headRequest st)).status_code == 200

/-- The request issued by get, client.py lines 102-105: full url from the
host and path, auth header from the tokens, no body. -/
def getRequest (st : ClientState) (path : String) : Request :=
  ⟨.GET, get_full_url st.host path, make_auth_header st.tokens, none, none⟩

/-- get, client.py lines 98-107: issue the request, check the status, then
return the JSON-parsed body. -/
def get (st : ClientState) (world : Request → Response) (path : String) :
    Except ApiError Json :=
  let response := world (getRequest st path)
  match check_status response.status_code path with
  | .error e => .error e
  | .ok _ => .ok response.json

/-- The request issued by post, client.py lines 114-118. -/
def postRequest (st : ClientState) (path : String) (data : Json) : Request :=
  ⟨.POST, get_full_url st.host path, make_auth_header st.tokens, some data, none⟩

/-- post, client.py lines 110-120: like get, with a JSON body, returning the
JSON-parsed response body. -/
def post (st : ClientState) (world : Request → Response) (path : String)
    (data : Json) : Except ApiError Json :=
  let response := world (postRequest st path data)
  match check_status response.status_code path with
  | .error e => .error e
  | .ok _ => .ok response.json

/-- The request issued by put, client.py lines 127-131. -/
def putRequest (st : ClientState) (path : String) (data : Json) : Request :=
  ⟨.PUT, get_full_url st.host path, make_auth_header st.tokens, some data, none⟩

/-- put, client.py lines 123-133: like post with the PUT verb. -/
def put (st : ClientState) (world : Request → Response) (path : String)
    (data : Json) : Except ApiError Json :=
  let response := world (putRequest st path data)
  match check_status response.status_code path with
  | .error e => .error e
  | .ok _ => .ok response.json

/-- The request issued by delete, client.py lines 140-143. -/
def deleteRequest (st : ClientState) (path : String) : Request :=
  ⟨.DELETE, get_full_url st.host path, make_auth_header st.tokens, none, none⟩

/-- delete, client.py lines 136-145: like get, but returns the raw response
text instead of the JSON-parsed body. -/
def delete (st : ClientState) (world : Request → Response) (path : String) :
    Except ApiError String :=
  let response := world (deleteRequest st path)
  match check_status response.status_code path with
  | .error e => .error e
  | .ok _ => .ok response.text

/-- The request issued by upload, client.py line 198: a POST of the file as
multipart data; no headers argument is passed, so no auth header, and no
JSON body. -/
def uploadRequest (st : ClientState) (path file_path : String) : Request :=
  ⟨.POST, get_full_url st.host path, [], none, some file_path⟩

/-- upload, client.py lines 192-198: multipart POST of the file, returning
the JSON-parsed response body directly, with no status check at all. -/
def upload (st : ClientState) (world : Request → Response)
    (path file_path : String) : Json :=
  (world (uploadRequest st path file_path)).json

/-- fetch_all, client.py lines 164-168. -/
def fetch_all (st : ClientState) (world : Request → Response)
    (model : String) : Except ApiError Json :=
  get st world (url_path_join ["data", model])

/-- fetch_one, client.py lines 171-175. -/
def fetch_one (st : ClientState) (world : Request → Response)
    (model id : String) : Except ApiError Json :=
  get st world (url_path_join ["data", model, id])

/-- create, client.py lines 178-182. -/
def create (st : ClientState) (world : Request → Response)
    (model : String) (data : Json) : Except ApiError Json :=
  post st world (url_path_join ["data", model]) data

/-- get_api_version, client.py lines 185-189: the version field of the root
endpoint response; the field access is modelled with an Option. -/
def get_api_version (st : ClientState) (world : Request → Response) :
    Except ApiError (Option Json) :=
  (get st world "").map (fun j => j.getField "version")

/-- The names bound at the top level of the module src/gazu/client.py, in
source order: the four imports of line 1-6, the six names imported from the
package modules (lines 8-15), and the module-level assignments and function
definitions. There is no binding named session. -/
def clientModuleNames : List String :=
  ["functools", "requests", "json",
   "CacheControlAdapter", "ExpiresAfter", "CustomJSONEncoder",
   "RouteNotFoundException", "ServerErrorException",
   "NotAuthenticatedException", "NotAllowedException",
   "requests_session", "HOST", "tokens",
   "host_is_up", "set_cache_expiration_delay", "get_host", "set_host",
   "set_tokens", "make_auth_header", "url_path_join", "get_full_url",
   "get", "post", "put", "delete", "check_status",
   "fetch_all", "fetch_one", "create", "get_api_version", "upload"]

/-- A Python NameError carrying the unresolvable name. -/
inductive PyException where
  | nameError : String → PyException
deriving DecidableEq, Repr

/-- A cache adapter as built on client.py lines 45-47, recording its
expiration delay. -/
structure CacheAdapter where
  expireSeconds : Nat
deriving DecidableEq, Repr

/-- set_cache_expiration_delay, client.py lines 41-49: first the adapter is
constructed (lines 45-47), then the statement session.mount runs, which
resolves the free name session against the module namespace; on success the
list of adapters mounted on the session would be returned with the adapter
in it, on an unresolvable name a NameError is raised and nothing is
mounted. -/
def set_cache_expiration_delay (seconds : Nat) :
    Except PyException (List CacheAdapter) :=
  let adapter : CacheAdapter := ⟨seconds⟩
  if clientModuleNames.contains "session" then .ok [adapter]
  else .error (.nameError "session")

/-- An entity record as the get-or-create tests exercise it: a server id
and the natural key (parent project id, name). -/
structure Entity where
  id : String
  project_id : String
  name : String
deriving DecidableEq, Repr

/-- The remote collection a get-or-create helper talks to: its records and
a supply of fresh server-assigned ids. -/
structure ServerModel where
  records : List Entity
  nextId : String
deriving DecidableEq, Repr

/-- The collection endpoint filtered by the natural key, as in the test
route data/episodes?project_id=...&name=... of test_shot.py lines 197-202:
all records matching the natural key. -/
def filteredGet (srv : ServerModel) (project_id name : String) : List Entity :=
  srv.records.filter (fun e => e.project_id == project_id && e.name == name)

/-- Modelled from the spec: the get-or-create helpers of the domain modules
(gazu.shot.new_episode, new_sequence, new_shot), whose module gazu/shot.py
is not part of the source snapshot; only src/tests/test_shot.py lines
195-219 exercises them. Following the spec, section 4.4: query the
collection filtered by the natural key; if at least one match, return the
first match unchanged with no POST; otherwise POST a new resource with the
natural key under the nested creation path and return the created record.
The result is the returned record, the server after the call, and whether
a creation POST was issued. -/
def new_entity (srv : ServerModel) (project_id name : String) :
    Entity × ServerModel × Bool :=
  match filteredGet srv project_id name with
  | e :: _ => (e, srv, false)
  | [] =>
    let created : Entity := ⟨srv.nextId, project_id, name⟩
    (created, ⟨srv.records ++ [created], srv.nextId ++ "+"⟩, true)

/-- A transport fixture answering every request with status 200, a fixed
JSON body and a fixed raw text. -/
def okWorld : Request → Response :=
  fun _ => ⟨200, Json.str "body", "raw"⟩

/-- A transport fixture answering every request with status 404. -/
def notFoundWorld : Request → Response :=
  fun _ => ⟨404, Json.null, ""⟩

/-- A transport fixture whose root endpoint carries a version field. -/
def versionWorld : Request → Response :=
  fun _ => ⟨200, Json.obj [("version", Json.str "0.8.7")], ""⟩

/-- A concrete client state with an access token set. -/
def stationX : ClientState :=
  ⟨"http://host", [("access_token", "X")]⟩

/-- An initially empty remote collection with a fresh id supply. -/
def srv0 : ServerModel := ⟨[], "episode-01"⟩

/-- Helper: check_status succeeds, returning the code unchanged, on every
status code outside the six error codes. -/
theorem check_status_ok_of_not_mem (c : Nat) (p : String)
    (h : c ∉ errorCodes) : check_status c p = .ok c := by
  simp only [errorCodes, List.mem_cons, List.not_mem_nil, or_false, not_or] at h
  obtain ⟨h1, h2, h3, h4, h5, h6⟩ := h
  simp [check_status, h1, h2, h3, h4, h5, h6]

/-- Claim C1: check_status raises RouteNotFound on 404, NotAllowed on 403,
NotAuthenticated on 401 and 422, ServerError on 500 and 502, and on every
other status code raises nothing, the request being treated as a success
that returns the parsed body. -/
theorem check_status_maps_codes (c : Nat) (p : String) (st : ClientState)
    (world : Request → Response) :
    (c = 404 → check_status c p = .error (.RouteNotFound p)) ∧
    (c = 403 → check_status c p = .error (.NotAllowed p)) ∧
    (c = 401 ∨ c = 422 → check_status c p = .error (.NotAuthenticated p)) ∧
    (c = 500 ∨ c = 502 → check_status c p = .error (.ServerError p)) ∧
    (c ∉ errorCodes → check_status c p = .ok c) ∧
    ((world (getRequest st p)).status_code ∉ errorCodes →
      get st world p = .ok (world (getRequest st p)).json) := by
  refine ⟨?_, ?_, ?_, ?_, ?_, ?_⟩
  · rintro rfl; rfl
  · rintro rfl; rfl
  · rintro (rfl | rfl) <;> rfl
  · rintro (rfl | rfl) <;> rfl
  · exact check_status_ok_of_not_mem c p
  · intro h
    have hcs := check_status_ok_of_not_mem (world (getRequest st p)).status_code p h
    simp [get, hcs]

/-- Witness for C1 at concrete inputs: a 404 raises RouteNotFound, a 200 is
a success, and get on a 200 transport returns the parsed body. -/
theorem check_status_maps_codes_witness :
    check_status 404 "data/shots/shot-01" =
      .error (.RouteNotFound "data/shots/shot-01") ∧
    check_status 200 "data/shots" = .ok 200 ∧
    get stationX okWorld "data/shots" = .ok (Json.str "body") :=
  ⟨(check_status_maps_codes 404 "data/shots/shot-01" stationX okWorld).1 rfl,
   (check_status_maps_codes 200 "data/shots" stationX okWorld).2.2.2.2.1
     (by decide),
   (check_status_maps_codes 200 "data/shots" stationX okWorld).2.2.2.2.2
     (by decide)⟩

/-- Claim C2, amended: get, post, put and delete attach exactly the header
dictionary built by make_auth_header, which carries an Authorization entry
exactly when the token dictionary has an access_token key; upload and
host_is_up pass no headers at all, so they never send an Authorization
header, whatever the token state. -/
theorem auth_header_per_operation (st : ClientState)
    (path file_path : String) (data : Json) (tk : List (String × String)) :
    (getRequest st path).headers = make_auth_header st.tokens ∧
    (postRequest st path data).headers = make_auth_header st.tokens ∧
    (putRequest st path data).headers = make_auth_header st.tokens ∧
    (deleteRequest st path).headers = make_auth_header st.tokens ∧
    (uploadRequest st path file_path).headers = [] ∧
    (headRequest st).headers = [] ∧
    ((make_auth_header tk).lookup "Authorization" = none ↔
      tk.lookup "access_token" = none) := by
  refine ⟨rfl, rfl, rfl, rfl, rfl, rfl, ?_⟩
  unfold make_auth_header
  cases h : tk.lookup "access_token" <;> simp

/-- Counterexample to C2 as stated: with an access token X present, the
auth header would be Bearer X, yet the request issued by upload and the
request issued by host_is_up carry an empty header dictionary, hence no
Authorization header. -/
theorem upload_missing_auth_header :
    make_auth_header stationX.tokens = [("Authorization", "Bearer X")] ∧
    (uploadRequest stationX "data/pictures" "f.png").headers = [] ∧
    (headRequest stationX).headers = [] :=
  ⟨rfl, rfl, rfl⟩

/-- Claim C3, amended: make_auth_header returns the empty dictionary
exactly when the token dictionary has no access_token key; when the key is
present with value X it returns the Bearer X Authorization header, and in
the initial default token state, where the key is present with the empty
string as value, it returns the Bearer header with an empty token, not the
empty dictionary. -/
theorem make_auth_header_key_presence (tk : List (String × String)) :
    (tk.lookup "access_token" = none → make_auth_header tk = []) ∧
    (∀ x, tk.lookup "access_token" = some x →
      make_auth_header tk = [("Authorization", "Bearer " ++ x)]) ∧
    make_auth_header tokens = [("Authorization", "Bearer ")] := by
  refine ⟨fun h => ?_, fun x h => ?_, rfl⟩
  · simp [make_auth_header, h]
  · simp [make_auth_header, h]

/-- Witness for C3 at concrete inputs: no access_token key gives the empty
dictionary; key present with value X gives the Bearer X header. -/
theorem make_auth_header_key_presence_witness :
    make_auth_header [("refresh_token", "")] = [] ∧
    make_auth_header [("access_token", "X")] =
      [("Authorization", "Bearer X")] :=
  ⟨(make_auth_header_key_presence [("refresh_token", "")]).1 rfl,
   (make_auth_header_key_presence [("access_token", "X")]).2.1 "X" rfl⟩

/-- Counterexample to C3 as stated: in the initial default token state the
access token is unset (empty string), yet make_auth_header does not return
the empty dictionary; it returns a Bearer header with an empty token. -/
theorem make_auth_header_initial_state :
    make_auth_header tokens = [("Authorization", "Bearer ")] ∧
    make_auth_header tokens ≠ [] := by
  refine ⟨rfl, by decide⟩

/-- Claim C4: url_path_join strips leading and trailing slashes from each
segment and joins with a single slash; the full url of a request is the
join of the configured host and the path. -/
theorem url_join_and_full_url (st : ClientState) (path : String) :
    url_path_join ["a/", "/b"] = "a/b" ∧
    (getRequest st path).url = url_path_join [st.host, path] ∧
    get_full_url "http://host/" "/data/shots/" = "http://host/data/shots" := by
  refine ⟨by decide, rfl, by decide⟩

/-- Claim C5: on a success status code, get, post and put return the
JSON-parsed response body, while delete returns the raw response text. -/
theorem verb_return_types (st : ClientState) (world : Request → Response)
    (path : String) (data : Json) :
    ((world (getRequest st path)).status_code ∉ errorCodes →
      get st world path = .ok (world (getRequest st path)).json) ∧
    ((world (postRequest st path data)).status_code ∉ errorCodes →
      post st world path data = .ok (world (postRequest st path data)).json) ∧
    ((world (putRequest st path data)).status_code ∉ errorCodes →
      put st world path data = .ok (world (putRequest st path data)).json) ∧
    ((world (deleteRequest st path)).status_code ∉ errorCodes →
      delete st world path = .ok (world (deleteRequest st path)).text) := by
  refine ⟨fun h => ?_, fun h => ?_, fun h => ?_, fun h => ?_⟩
  · have hcs := check_status_ok_of_not_mem _ path h
    simp [get, hcs]
  · have hcs := check_status_ok_of_not_mem _ path h
    simp [post, hcs]
  · have hcs := check_status_ok_of_not_mem _ path h
    simp [put, hcs]
  · have hcs := check_status_ok_of_not_mem _ path h
    simp [delete, hcs]

/-- Witness for C5 on a transport answering 200 with a fixed JSON body and
a fixed raw text: get returns the JSON body, delete returns the raw text. -/
theorem verb_return_types_witness :
    get stationX okWorld "data/shots" = .ok (Json.str "body") ∧
    delete stationX okWorld "data/shots/shot-01" = .ok "raw" :=
  ⟨(verb_return_types stationX okWorld "data/shots" Json.null).1 (by decide),
   (verb_return_types stationX okWorld "data/shots/shot-01" Json.null).2.2.2
     (by decide)⟩

/-- Claim C6: fetch_all issues a GET on data slash model, fetch_one on data
slash model slash id failing with RouteNotFound on a 404, create a POST on
data slash model with the given body, and get_api_version extracts the
version field of the root endpoint response. -/
theorem crud_helpers_paths (st : ClientState) (world : Request → Response)
    (model id : String) (data : Json) :
    fetch_all st world model = get st world (url_path_join ["data", model]) ∧
    fetch_one st world model id =
      get st world (url_path_join ["data", model, id]) ∧
    create st world model data =
      post st world (url_path_join ["data", model]) data ∧
    (stripSlashes model = model →
      url_path_join ["data", model] = "data/" ++ model) ∧
    (stripSlashes model = model → stripSlashes id = id →
      url_path_join ["data", model, id] = "data/" ++ model ++ "/" ++ id) ∧
    ((world (getRequest st (url_path_join ["data", model, id]))).status_code
        = 404 →
      fetch_one st world model id =
        .error (.RouteNotFound (url_path_join ["data", model, id]))) ∧
    (∀ version rest,
      (world (getRequest st "")).status_code ∉ errorCodes →
      (world (getRequest st "")).json = Json.obj (("version", version) :: rest) →
      get_api_version st world = .ok (some version)) := by
  refine ⟨rfl, rfl, rfl, fun hm => ?_, fun hm hi => ?_, fun h404 => ?_,
    fun version rest h hj => ?_⟩
  · show stripSlashes "data" ++ "/" ++ stripSlashes model = "data/" ++ model
    rw [hm]; rfl
  · show stripSlashes "data" ++ "/" ++ stripSlashes model ++ "/" ++
      stripSlashes id = "data/" ++ model ++ "/" ++ id
    rw [hm, hi]; rfl
  · simp [fetch_one, get, h404, check_status]
  · have hcs := check_status_ok_of_not_mem _ "" h
    simp [get_api_version, get, hcs, hj, Json.getField, Except.map,
      List.lookup]

/-- Witness for C6: a 404 on the entity path makes fetch_one fail with
RouteNotFound, and get_api_version reads the version field. -/
theorem crud_helpers_paths_witness :
    fetch_one ⟨"http://h", []⟩ notFoundWorld "shots" "shot-01" =
      .error (.RouteNotFound "data/shots/shot-01") ∧
    get_api_version ⟨"http://h", []⟩ versionWorld =
      .ok (some (Json.str "0.8.7")) :=
  ⟨(crud_helpers_paths ⟨"http://h", []⟩ notFoundWorld "shots" "shot-01"
      Json.null).2.2.2.2.2.1 rfl,
   (crud_helpers_paths ⟨"http://h", []⟩ versionWorld "m" "i"
      Json.null).2.2.2.2.2.2 (Json.str "0.8.7") [] (by decide) rfl⟩

/-- Claim C7: the get-or-create helper issues a creation POST exactly when
the filtered GET is empty, returns the first match unchanged with no POST
when there is one, and a second identical call returns the first call
record without a POST. -/
theorem get_or_create_idempotent (srv : ServerModel)
    (project_id name : String) :
    ((new_entity srv project_id name).2.2 = true ↔
      filteredGet srv project_id name = []) ∧
    (∀ e es, filteredGet srv project_id name = e :: es →
      new_entity srv project_id name = (e, srv, false)) ∧
    (new_entity (new_entity srv project_id name).2.1 project_id name).2.2
      = false ∧
    (new_entity (new_entity srv project_id name).2.1 project_id name).1
      = (new_entity srv project_id name).1 := by
  cases h : filteredGet srv project_id name with
  | nil =>
    have hcreated : filteredGet
        ⟨srv.records ++ [⟨srv.nextId, project_id, name⟩], srv.nextId ++ "+"⟩
        project_id name = [⟨srv.nextId, project_id, name⟩] := by
      have hbase : srv.records.filter
          (fun e => e.project_id == project_id && e.name == name) = [] := h
      simp [filteredGet, List.filter_append, hbase]
    refine ⟨by simp [new_entity, h], ?_, ?_, ?_⟩
    · intro e es hcons
      exact absurd hcons (by simp)
    · simp [new_entity, h, hcreated]
    · simp [new_entity, h, hcreated]
  | cons e es =>
    refine ⟨by simp [new_entity, h], ?_, ?_, ?_⟩
    · intro e' es' hcons
      injection hcons with h1 h2
      simp [new_entity, h, h1]
    · simp [new_entity, h]
    · simp [new_entity, h]

/-- Witness for C7 on an initially empty collection: the first call issues
a creation POST, the second call issues none and returns the same record. -/
theorem get_or_create_idempotent_witness :
    (new_entity srv0 "project-01" "Episode 01").2.2 = true ∧
    (new_entity (new_entity srv0 "project-01" "Episode 01").2.1
      "project-01" "Episode 01").2.2 = false ∧
    (new_entity (new_entity srv0 "project-01" "Episode 01").2.1
      "project-01" "Episode 01").1
      = (new_entity srv0 "project-01" "Episode 01").1 :=
  ⟨(get_or_create_idempotent srv0 "project-01" "Episode 01").1.mpr rfl,
   (get_or_create_idempotent srv0 "project-01" "Episode 01").2.2.1,
   (get_or_create_idempotent srv0 "project-01" "Episode 01").2.2.2⟩

/-- Claim C8: upload issues a multipart POST of the file to the full url
built from the host and the path, with no JSON body and no headers (hence
no Authorization header), and returns the JSON-parsed response body. -/
theorem upload_request_shape (st : ClientState) (world : Request → Response)
    (path file_path : String) :
    (uploadRequest st path file_path).method = .POST ∧
    (uploadRequest st path file_path).url = get_full_url st.host path ∧
    (uploadRequest st path file_path).files = some file_path ∧
    (uploadRequest st path file_path).jsonBody = none ∧
    (uploadRequest st path file_path).headers = [] ∧
    upload st world path file_path =
      (world (uploadRequest st path file_path)).json :=
  ⟨rfl, rfl, rfl, rfl, rfl, rfl⟩

/-- Claim C9: set_cache_expiration_delay always raises a NameError on the
name session before mounting the adapter, because the module namespace
binds requests_session but not session; the entry point never succeeds. -/
theorem cache_delay_name_error (seconds : Nat) :
    set_cache_expiration_delay seconds = .error (.nameError "session") ∧
    ¬ "session" ∈ clientModuleNames ∧
    "requests_session" ∈ clientModuleNames := by
  refine ⟨rfl, by decide, by decide⟩

/-- Claim C10: url_path_join preserves slashes interior to a segment, and
get_full_url applied to the empty path is the stripped base url followed by
a trailing slash; on the default host this reproduces the host itself. -/
theorem url_join_interior_slashes (host : String) :
    url_path_join ["a//b", "c"] = "a//b/c" ∧
    get_full_url host "" = stripSlashes host ++ "/" ∧
    get_full_url HOST "" = "http://pipeline-server.unit.local/" := by
  refine ⟨by decide, ?_, by decide⟩
  show stripSlashes host ++ "/" ++ stripSlashes "" = stripSlashes host ++ "/"
  simp [stripSlashes, lstripSlash, rstripSlash]

end Gazu
